import Mathlib

/-!
Shallow embedding of the Scalping Bot ACSIL study (src/scalping_bot.cpp).

The study is a single evaluation function `scsf_Scalping_Bot` driven once per
chart update.  We embed:

* the persisted bot state (`BotState`, the five `GetPersistentInt` slots);
* the per-tick external inputs (`TickInput`): the authoritative order book
  snapshot, the queried position quantity, the latest close, the volatility
  reading, the current time, the tick size, and the broker's response to an
  OCO submission should one be issued this tick;
* the evaluation tick (`evalTick`, lines 303-718 of the source), decomposed
  into the time gate (`beforeStartPath`, `stopPath`), the offset calculator
  (`computedOffset`), and the three state-machine branches (`state1`,
  `state2`, `state3`);
* the bootstrap reconciliation (`bootstrap`, lines 213-301).

Machine floats are modelled as exact rationals.  Broker interactions are
recorded as a list of `Call`s.  Of the logging helper calls only the
non-debounced safety reports (tick-size failure, the STATE-1 price guard,
and the STATE-3 safety/inconsistency reports) are recorded, as `Call.report`
with the source's numeric severity (1 = ERROR, 2 = WARN); informational and
debounced logging is presentation-level and not part of the core contract.
-/

namespace ScalpingBot

/-- Trade side (enum `TradeSide` in the source: SIDE_FLAT/SIDE_LONG/SIDE_SHORT). -/
inductive TradeSide where
  | Flat
  | Long
  | Short
deriving DecidableEq, Repr

/-- Order status codes the study inspects (`SCT_OSC_*`).  `Pending` stands for
any status other than the four the code tests. -/
inductive OrderStatus where
  | OpenStatus
  | Filled
  | Canceled
  | OrderError
  | Pending
deriving DecidableEq, Repr

/-- Order types the study inspects (`SCT_ORDERTYPE_*`). -/
inductive OrderType where
  | Limit
  | StopType
  | StopLimit
  | Market
deriving DecidableEq, Repr

/-- The fields of `s_SCTradeOrder` the study reads. -/
structure Order where
  internalOrderID : Int
  parentInternalOrderID : Int
  orderStatusCode : OrderStatus
  orderTypeAsInt : OrderType
  price1 : ℚ
deriving DecidableEq, Repr

/-- The five persisted integer slots (lines 116-126).  `tradeSide` and `armed`
hold the values of `CurrentTradeSide_Persist` and `IsBracketArmed_Persist`. -/
structure BotState where
  buyId : Int
  sellId : Int
  activeId : Int
  tradeSide : TradeSide
  armed : Bool
deriving DecidableEq, Repr

/-- The all-zero/Flat initial persisted state. -/
def zeroState : BotState :=
  { buyId := 0, sellId := 0, activeId := 0, tradeSide := TradeSide.Flat, armed := false }

/-- Result of `sc.SubmitOCOOrder`: the returned code and the two leg ids the
call writes back into the order structure (`InternalOrderID`,
`InternalOrderID2`). -/
structure SubmitResp where
  result : Int
  id1 : Int
  id2 : Int
deriving DecidableEq, Repr

/-- Outward calls the tick makes on the broker adapter, plus the recorded
safety log reports (level 1 = ERROR, 2 = WARN). -/
inductive Call where
  | queryOrder (id : Int)
  | cancelOrder (id : Int)
  | flatten
  | submit (qty : Int) (buyPrice sellPrice stopOffset targetOffset : ℚ)
  | report (level : Nat)
deriving DecidableEq, Repr

/-- Study inputs (lines 101-110). -/
structure Config where
  numContracts : Int
  bracketFrac : ℚ
  stopFrac : ℚ
  tpFrac : ℚ
  useWindow : Bool
  startTime : Int
  stopTime : Int
  enabled : Bool
  logLevel : Int
deriving DecidableEq, Repr

/-- External truth read during one evaluation tick. -/
structure TickInput where
  orders : List Order
  posQty : ℚ
  close : ℚ
  vol : Option ℚ
  currentTime : Int
  tickSize : ℚ
  submitResp : SubmitResp
deriving DecidableEq, Repr

/-- `sc.RoundToIncrement`: round a value to the nearest multiple of the
increment. -/
def roundToIncrement (v inc : ℚ) : ℚ :=
  if inc = 0 then v else (round (v / inc) : ℤ) * inc

/-- `sc.RoundToTickSize`: round a price to the nearest tick multiple. -/
def roundToTickSize (price tick : ℚ) : ℚ :=
  roundToIncrement price tick

/-- One offset of the offset calculator (lines 429-470): round `r * frac` to
the tick increment, then floor the result up to at least one tick. -/
def computedOffset (r frac tick : ℚ) : ℚ :=
  let c := roundToIncrement (r * frac) tick
  if c < tick then tick else c

/-- `sc.GetOrderByOrderID`: look an order up in the authoritative book. -/
def getOrderById (orders : List Order) (id : Int) : Option Order :=
  orders.find? (fun o => decide (o.internalOrderID = id))

/-- STATE 1 price guard (lines 502-517): compute the two rounded entry limit
prices; if the buy limit is not below the sell limit, nudge the buy limit to
one tick below the sell limit (WARN); if it is still not below, abort
(ERROR), yielding `none`. -/
def entryPriceGuard (close entryOff tick : ℚ) : Option (ℚ × ℚ) × List Call :=
  let buyLimit := roundToTickSize (close - entryOff) tick
  let sellLimit := roundToTickSize (close + entryOff) tick
  if sellLimit ≤ buyLimit then
    let buy2 := roundToTickSize (sellLimit - tick) tick
    if sellLimit ≤ buy2 then (none, [Call.report 2, Call.report 1])
    else (some (buy2, sellLimit), [Call.report 2])
  else (some (buyLimit, sellLimit), [])

/-- STATE 1 (lines 499-570): flat and not armed; try to place the OCO
bracket.  On a positive submission result persist both leg ids and arm the
bracket; on failure reset the ids and stay unarmed. -/
def state1 (close entryOff stopOff tpOff tick : ℚ) (qty : Int) (resp : SubmitResp)
    (s : BotState) : BotState × List Call :=
  match entryPriceGuard close entryOff tick with
  | (none, gcalls) => (s, gcalls)
  | (some (buyLimit, sellLimit), gcalls) =>
    if 0 < resp.result then
      ({ s with buyId := resp.id1, sellId := resp.id2, armed := true },
        gcalls ++ [Call.submit qty buyLimit sellLimit stopOff tpOff])
    else
      ({ s with buyId := 0, sellId := 0, armed := false },
        gcalls ++ [Call.submit qty buyLimit sellLimit stopOff tpOff])

/-- One leg poll of STATE 2 (the buy block, lines 582-598, and the
structurally identical sell block, lines 601-617): a nonzero leg id is
queried; a Filled leg yields the entry; a Canceled/Error leg is invalidated
(id set to 0); any other outcome (including a failed query) leaves the leg
untouched.  Returns (possibly invalidated leg id, fill result, calls). -/
def pollLeg (orders : List Order) (side : TradeSide) (legId : Int) :
    Int × Option (TradeSide × Int) × List Call :=
  if legId = 0 then (legId, none, [])
  else
    match getOrderById orders legId with
    | none => (legId, none, [Call.queryOrder legId])
    | some o =>
      if o.orderStatusCode = OrderStatus.Filled then
        (legId, some (side, legId), [Call.queryOrder legId])
      else if o.orderStatusCode = OrderStatus.Canceled ∨
          o.orderStatusCode = OrderStatus.OrderError then
        (0, none, [Call.queryOrder legId])
      else (legId, none, [Call.queryOrder legId])

/-- STATE 2 (lines 574-645): flat with the bracket armed; poll the buy leg
first, then (only if no fill yet) the sell leg.  On a fill: set the side,
record the filled parent, disarm, and clear the opposing leg id.  With no
fill and both ids inactive, reset the bracket state. -/
def state2 (orders : List Order) (s : BotState) : BotState × List Call :=
  let buyRes := pollLeg orders TradeSide.Long s.buyId
  let sellRes :=
    if buyRes.2.1 = none then pollLeg orders TradeSide.Short s.sellId
    else (s.sellId, none, ([] : List Call))
  let buyId1 := buyRes.1
  let sellId1 := sellRes.1
  let calls := buyRes.2.2 ++ sellRes.2.2
  match buyRes.2.1.orElse (fun _ => sellRes.2.1) with
  | some (side, pid) =>
    if side = TradeSide.Long then
      ({ s with tradeSide := side, activeId := pid, armed := false, buyId := buyId1, sellId := 0 }, calls)
    else
      ({ s with tradeSide := side, activeId := pid, armed := false, buyId := 0, sellId := sellId1 }, calls)
  | none =>
    if buyId1 = 0 ∧ sellId1 = 0 ∧ s.armed = true then
      ({ s with buyId := buyId1, sellId := sellId1, armed := false, activeId := 0 }, calls)
    else
      ({ s with buyId := buyId1, sellId := sellId1 }, calls)

/-- The child-scan predicate of STATE 3 (lines 663-704): the scan stops at
the first child of the active filled parent whose status is Filled, Canceled
or Error. -/
def isExitChild (activeId : Int) (o : Order) : Bool :=
  decide (o.parentInternalOrderID = activeId ∧
    (o.orderStatusCode = OrderStatus.Filled ∨ o.orderStatusCode = OrderStatus.Canceled ∨
      o.orderStatusCode = OrderStatus.OrderError))

/-- STATE 3 (lines 649-718): in a trade.  With no tracked filled parent,
report the inconsistency (ERROR), flatten a nonzero position, and set the
side back to Flat (the source resets only `CurrentTradeSide_Persist` here).
Otherwise scan the children of the filled parent: a Filled child is a normal
exit (full reset); a Canceled/Error child is the safety case (ERROR reports,
flatten a nonzero position, full reset). -/
def state3 (orders : List Order) (posQty : ℚ) (s : BotState) : BotState × List Call :=
  if s.activeId = 0 then
    ({ s with tradeSide := TradeSide.Flat },
      Call.report 1 :: (if posQty ≠ 0 then [Call.flatten] else []))
  else
    match orders.find? (isExitChild s.activeId) with
    | none => (s, [])
    | some o =>
      if o.orderStatusCode = OrderStatus.Filled then (zeroState, [])
      else
        (zeroState,
          Call.report 1 :: (if posQty ≠ 0 then [Call.report 1, Call.flatten] else []))

/-- Before-window branch of the time gate (lines 343-359): cancel and clear
an armed bracket; the trade side is left untouched. -/
def beforeStartPath (s : BotState) : BotState × List Call :=
  if s.armed = true then
    ({ s with buyId := 0, sellId := 0, armed := false, activeId := 0 },
      (if s.buyId ≠ 0 then [Call.cancelOrder s.buyId] else []) ++
        (if s.sellId ≠ 0 then [Call.cancelOrder s.sellId] else []))
  else (s, [])

/-- Stop-time branch of the time gate (lines 360-400): cancel any armed
bracket legs, query the position and flatten it if nonzero, then reset every
persisted field to zero/Flat. -/
def stopPath (posQty : ℚ) (s : BotState) : BotState × List Call :=
  (zeroState,
    (if s.armed = true then
        (if s.buyId ≠ 0 then [Call.cancelOrder s.buyId] else []) ++
          (if s.sellId ≠ 0 then [Call.cancelOrder s.sellId] else [])
      else []) ++
      (if posQty ≠ 0 then [Call.flatten] else []))

/-- State-machine dispatch (lines 493-718): exactly one branch per tick. -/
def stateMachine (cfg : Config) (inp : TickInput) (entryOff stopOff tpOff : ℚ)
    (s : BotState) : BotState × List Call :=
  if s.tradeSide = TradeSide.Flat ∧ s.armed = false then
    state1 inp.close entryOff stopOff tpOff inp.tickSize cfg.numContracts inp.submitResp s
  else if s.tradeSide = TradeSide.Flat ∧ s.armed = true then
    state2 inp.orders s
  else if s.tradeSide ≠ TradeSide.Flat then
    state3 inp.orders inp.posQty s
  else (s, [])

/-- One evaluation tick (lines 303-718): master enable check, tick-size
validity check (ERROR report), the optional time gate, the volatility
validation, the offset calculator, then the state machine. -/
def evalTick (cfg : Config) (inp : TickInput) (s : BotState) : BotState × List Call :=
  if cfg.enabled = false then (s, [])
  else if inp.tickSize ≤ 0 then (s, [Call.report 1])
  else if cfg.useWindow = true ∧ inp.currentTime < cfg.startTime then
    beforeStartPath s
  else if cfg.useWindow = true ∧ cfg.stopTime ≤ inp.currentTime then
    stopPath inp.posQty s
  else
    match inp.vol with
    | none => (s, [])
    | some r =>
      if r ≤ 0 then (s, [])
      else
        stateMachine cfg inp
          (computedOffset r cfg.bracketFrac inp.tickSize)
          (computedOffset r cfg.stopFrac inp.tickSize)
          (computedOffset r cfg.tpFrac inp.tickSize) s

/-- Bootstrap candidate collection (lines 245-266): top-level open limit
orders with exactly two attached children, counted over the whole book. -/
def bootCandidates (orders : List Order) : List Order :=
  orders.filter (fun o =>
    decide (o.orderStatusCode = OrderStatus.OpenStatus ∧
      o.parentInternalOrderID = 0 ∧ o.orderTypeAsInt = OrderType.Limit ∧
      orders.countP (fun c => decide (c.parentInternalOrderID = o.internalOrderID)) = 2))

/-- Bootstrap reconciliation (lines 213-301): reset all ids, infer the trade
side from the position, and, when flat, re-arm the bracket exactly when the
book holds exactly two candidates, assigning the lower-priced one as the buy
leg.  When not flat, the armed flag (already reset) is corrected to false. -/
def bootstrap (inp : TickInput) : BotState :=
  let side :=
    if 0 < inp.posQty then TradeSide.Long
    else if inp.posQty < 0 then TradeSide.Short
    else TradeSide.Flat
  let s1 : BotState :=
    { buyId := 0, sellId := 0, activeId := 0, tradeSide := side, armed := false }
  if side = TradeSide.Flat then
    match bootCandidates inp.orders with
    | [a, b] =>
      let orderA := (getOrderById inp.orders a.internalOrderID).getD a
      let orderB := (getOrderById inp.orders b.internalOrderID).getD b
      if orderA.price1 < orderB.price1 then
        { s1 with buyId := orderA.internalOrderID, sellId := orderB.internalOrderID, armed := true }
      else
        { s1 with buyId := orderB.internalOrderID, sellId := orderA.internalOrderID, armed := true }
    | _ => s1
  else
    if s1.armed = true then { s1 with armed := false } else s1

/-- Reachable persisted states: the all-zero initial state, closed under
evaluation ticks (which include the window-gate actions) and bootstrap
reconciliations. -/
inductive Reach : BotState → Prop where
  | init : Reach zeroState
  | tick (cfg : Config) (inp : TickInput) (s : BotState) :
      Reach s → Reach (evalTick cfg inp s).1
  | boot (inp : TickInput) (s : BotState) :
      Reach s → Reach (bootstrap inp)

/-! ### Arithmetic facts about the rounding helpers -/

lemma abs_roundToIncrement_sub (v : ℚ) {t : ℚ} (ht : 0 < t) :
    |roundToIncrement v t - v| ≤ t / 2 := by
  unfold roundToIncrement
  rw [if_neg (ne_of_gt ht)]
  have h := abs_sub_round (v / t)
  have hne : t ≠ 0 := ne_of_gt ht
  have hrw : (round (v / t) : ℚ) * t - v = ((round (v / t) : ℚ) - v / t) * t := by
    field_simp
  rw [hrw, abs_mul, abs_of_pos ht, abs_sub_comm]
  calc |v / t - (round (v / t) : ℚ)| * t ≤ (1 / 2) * t := by
        exact mul_le_mul_of_nonneg_right h (le_of_lt ht)
    _ = t / 2 := by ring

lemma roundToIncrement_intMul (k : ℤ) {t : ℚ} (ht : t ≠ 0) :
    roundToIncrement ((k : ℚ) * t) t = (k : ℚ) * t := by
  unfold roundToIncrement
  rw [if_neg ht, mul_div_assoc, div_self ht, mul_one, round_intCast]

lemma roundToIncrement_isMul (v : ℚ) {t : ℚ} (ht : t ≠ 0) :
    ∃ k : ℤ, roundToIncrement v t = (k : ℚ) * t := by
  refine ⟨round (v / t), ?_⟩
  unfold roundToIncrement
  rw [if_neg ht]

/-- The offset floor: each computed offset is at least one tick increment. -/
lemma computedOffset_ge_tick (r frac : ℚ) {t : ℚ} (ht : 0 < t) :
    t ≤ computedOffset r frac t := by
  simp only [computedOffset]
  split
  · exact le_refl t
  · exact le_of_not_lt (by assumption)

/-- With an entry offset of at least one tick, the rounded buy limit is
strictly below the rounded sell limit, so the STATE 1 price guard passes
without nudging. -/
lemma entryPriceGuard_pass (close : ℚ) {off t : ℚ} (ht : 0 < t) (hoff : t ≤ off) :
    entryPriceGuard close off t =
      (some (roundToTickSize (close - off) t, roundToTickSize (close + off) t), []) := by
  have hbuy := abs_roundToIncrement_sub (close - off) ht
  have hsell := abs_roundToIncrement_sub (close + off) ht
  rw [abs_le] at hbuy hsell
  have hlt : roundToTickSize (close - off) t < roundToTickSize (close + off) t := by
    unfold roundToTickSize
    have h1 : roundToIncrement (close - off) t ≤ close - off + t / 2 := by linarith [hbuy.2]
    have h2 : close + off - t / 2 ≤ roundToIncrement (close + off) t := by linarith [hsell.1]
    linarith
  unfold entryPriceGuard
  rw [if_neg (not_le.mpr hlt)]

/-- In a list of orders with pairwise distinct ids, looking up an element's
id returns exactly that element. -/
lemma getOrderById_mem {l : List Order} {a : Order} (ha : a ∈ l)
    (hnd : (l.map Order.internalOrderID).Nodup) :
    getOrderById l a.internalOrderID = some a := by
  induction l with
  | nil => cases ha
  | cons h t ih =>
    rw [List.map_cons, List.nodup_cons] at hnd
    rcases List.mem_cons.mp ha with rfl | hat
    · unfold getOrderById
      rw [List.find?_cons_of_pos]
      simp
    · have hne : ¬ (h.internalOrderID = a.internalOrderID) := by
        intro he
        exact hnd.1 (he ▸ List.mem_map.mpr ⟨a, hat, rfl⟩)
      have hrec := ih hat hnd.2
      unfold getOrderById at hrec ⊢
      rw [List.find?_cons_of_neg t (by simpa using hne)]
      exact hrec

/-! ### Dispatch lemmas: which branch an evaluation tick takes -/

lemma stateMachine_eq_state1 {cfg : Config} {inp : TickInput} {e so tp : ℚ} {s : BotState}
    (h1 : s.tradeSide = TradeSide.Flat) (h2 : s.armed = false) :
    stateMachine cfg inp e so tp s =
      state1 inp.close e so tp inp.tickSize cfg.numContracts inp.submitResp s := by
  unfold stateMachine
  rw [if_pos ⟨h1, h2⟩]

lemma stateMachine_eq_state2 {cfg : Config} {inp : TickInput} {e so tp : ℚ} {s : BotState}
    (h1 : s.tradeSide = TradeSide.Flat) (h2 : s.armed = true) :
    stateMachine cfg inp e so tp s = state2 inp.orders s := by
  unfold stateMachine
  rw [if_neg (by simp [h1, h2]), if_pos ⟨h1, h2⟩]

lemma stateMachine_eq_state3 {cfg : Config} {inp : TickInput} {e so tp : ℚ} {s : BotState}
    (h1 : s.tradeSide ≠ TradeSide.Flat) :
    stateMachine cfg inp e so tp s = state3 inp.orders inp.posQty s := by
  unfold stateMachine
  rw [if_neg (fun h => h1 h.1), if_neg (fun h => h1 h.1), if_pos h1]

/-- When trading is enabled, the tick size is valid, the window gate is open
(or unused), and the volatility reading is valid, the tick reduces to the
state machine applied to the three computed offsets. -/
lemma evalTick_open {cfg : Config} {inp : TickInput} {s : BotState} {r : ℚ}
    (henb : cfg.enabled = true) (ht : 0 < inp.tickSize)
    (hw : cfg.useWindow = false ∨
      (cfg.startTime ≤ inp.currentTime ∧ inp.currentTime < cfg.stopTime))
    (hvol : inp.vol = some r) (hr : 0 < r) :
    evalTick cfg inp s =
      stateMachine cfg inp
        (computedOffset r cfg.bracketFrac inp.tickSize)
        (computedOffset r cfg.stopFrac inp.tickSize)
        (computedOffset r cfg.tpFrac inp.tickSize) s := by
  have h3 : ¬(cfg.useWindow = true ∧ inp.currentTime < cfg.startTime) := by
    rcases hw with h | h
    · rintro ⟨hb, -⟩; rw [h] at hb; cases hb
    · rintro ⟨-, hc⟩; exact absurd h.1 (not_le.mpr hc)
  have h4 : ¬(cfg.useWindow = true ∧ cfg.stopTime ≤ inp.currentTime) := by
    rcases hw with h | h
    · rintro ⟨hb, -⟩; rw [h] at hb; cases hb
    · rintro ⟨-, hc⟩; exact absurd hc (not_le.mpr h.2)
  unfold evalTick
  rw [if_neg (by simp [henb]), if_neg (not_le.mpr ht), if_neg h3, if_neg h4, hvol]
  simp only [if_neg (not_le.mpr hr)]

/-! ### The reachable-state invariant (armed implies flat) -/

/-- The core of the C1 invariant: an armed bracket only coexists with a flat
trade side. -/
def ArmedFlat (s : BotState) : Prop :=
  s.armed = true → s.tradeSide = TradeSide.Flat

lemma state1_tradeSide (close e so tp t : ℚ) (q : Int) (resp : SubmitResp) (s : BotState) :
    (state1 close e so tp t q resp s).1.tradeSide = s.tradeSide := by
  unfold state1
  split
  · rfl
  · split <;> rfl

lemma state2_unarmed_or_sameSide (orders : List Order) (s : BotState) :
    (state2 orders s).1.armed = false ∨ (state2 orders s).1.tradeSide = s.tradeSide := by
  simp only [state2]
  split
  · split <;> exact Or.inl rfl
  · split <;> (split <;> first | exact Or.inl rfl | exact Or.inr rfl)

lemma state2_armedFlat {orders : List Order} {s : BotState}
    (h : s.tradeSide = TradeSide.Flat) : ArmedFlat (state2 orders s).1 := by
  intro hc
  rcases state2_unarmed_or_sameSide orders s with hu | hs
  · rw [hu] at hc; cases hc
  · rw [hs]; exact h

lemma state3_armedFlat {orders : List Order} {p : ℚ} {s : BotState}
    (hInv : ArmedFlat s) : ArmedFlat (state3 orders p s).1 := by
  unfold state3
  split
  · intro _; rfl
  · split
    · exact hInv
    · split
      · intro _; rfl
      · intro _; rfl

lemma beforeStartPath_armedFlat {s : BotState} (hInv : ArmedFlat s) :
    ArmedFlat (beforeStartPath s).1 := by
  unfold beforeStartPath
  split
  · intro hc; simp at hc
  · exact hInv

lemma evalTick_armedFlat (cfg : Config) (inp : TickInput) {s : BotState}
    (hInv : ArmedFlat s) : ArmedFlat (evalTick cfg inp s).1 := by
  unfold evalTick
  split
  · exact hInv
  split
  · exact hInv
  split
  · exact beforeStartPath_armedFlat hInv
  split
  · intro _; rfl
  split
  · exact hInv
  rename_i r
  split
  · exact hInv
  unfold stateMachine
  split
  · rename_i hcond
    intro _
    rw [state1_tradeSide]
    exact hcond.1
  split
  · rename_i hcond
    exact state2_armedFlat hcond.1
  split
  · exact state3_armedFlat hInv
  · exact hInv

lemma bootstrap_armedFlat (inp : TickInput) : ArmedFlat (bootstrap inp) := by
  intro hc
  unfold bootstrap at hc ⊢
  by_cases h1 : (0 : ℚ) < inp.posQty
  · rw [if_pos h1] at hc; simp at hc
  · by_cases h2 : inp.posQty < 0
    · rw [if_neg h1, if_pos h2] at hc; simp at hc
    · rw [if_neg h1, if_neg h2]
      simp only [reduceIte]
      split
      · split <;> rfl
      · rfl

lemma reach_armedFlat {s : BotState} (h : Reach s) : ArmedFlat s := by
  induction h with
  | init => intro hc; rfl
  | tick cfg inp s _ ih => exact evalTick_armedFlat cfg inp ih
  | boot inp s _ _ => exact bootstrap_armedFlat inp

/-! ### Shapes of the calls each branch can make -/

lemma pollLeg_calls {orders : List Order} {side : TradeSide} {legId : Int} {c : Call}
    (hc : c ∈ (pollLeg orders side legId).2.2) : c = Call.queryOrder legId := by
  unfold pollLeg at hc
  split at hc
  · cases hc
  · split at hc
    · simpa using hc
    · split at hc
      · simpa using hc
      · split at hc
        · simpa using hc
        · simpa using hc

lemma state2_snd (orders : List Order) (s : BotState) :
    (state2 orders s).2 =
      (pollLeg orders TradeSide.Long s.buyId).2.2 ++
        (if (pollLeg orders TradeSide.Long s.buyId).2.1 = none then
            pollLeg orders TradeSide.Short s.sellId
          else (s.sellId, none, ([] : List Call))).2.2 := by
  simp only [state2]
  split
  · split <;> rfl
  · split <;> (split <;> rfl)

lemma state2_calls {orders : List Order} {s : BotState} {c : Call}
    (hc : c ∈ (state2 orders s).2) : ∃ i, c = Call.queryOrder i := by
  rw [state2_snd] at hc
  rcases List.mem_append.mp hc with h | h
  · exact ⟨s.buyId, pollLeg_calls h⟩
  · split at h
    · exact ⟨s.sellId, pollLeg_calls h⟩
    · cases h

lemma state3_calls {orders : List Order} {p : ℚ} {s : BotState} {c : Call}
    (hc : c ∈ (state3 orders p s).2) : c = Call.report 1 ∨ c = Call.flatten := by
  unfold state3 at hc
  split at hc
  · rcases List.mem_cons.mp hc with h | h
    · exact Or.inl h
    · split at h
      · exact Or.inr (by simpa using h)
      · cases h
  · split at hc
    · cases hc
    · split at hc
      · cases hc
      · rcases List.mem_cons.mp hc with h | h
        · exact Or.inl h
        · split at h
          · rcases List.mem_cons.mp h with h2 | h2
            · exact Or.inl h2
            · exact Or.inr (by simpa using h2)
          · cases h

lemma beforeStartPath_calls {s : BotState} {c : Call}
    (hc : c ∈ (beforeStartPath s).2) : ∃ i, c = Call.cancelOrder i := by
  unfold beforeStartPath at hc
  split at hc
  · rcases List.mem_append.mp hc with h | h
    · split at h
      · exact ⟨s.buyId, by simpa using h⟩
      · cases h
    · split at h
      · exact ⟨s.sellId, by simpa using h⟩
      · cases h
  · cases hc

lemma stopPath_calls {p : ℚ} {s : BotState} {c : Call}
    (hc : c ∈ (stopPath p s).2) : (∃ i, c = Call.cancelOrder i) ∨ c = Call.flatten := by
  unfold stopPath at hc
  rcases List.mem_append.mp hc with h | h
  · split at h
    · rcases List.mem_append.mp h with h2 | h2
      · split at h2
        · exact Or.inl ⟨s.buyId, by simpa using h2⟩
        · cases h2
      · split at h2
        · exact Or.inl ⟨s.sellId, by simpa using h2⟩
        · cases h2
    · cases h
  · split at h
    · exact Or.inr (by simpa using h)
    · cases h

/-- When the first guard test fails and the nudge also fails, the guard
returns exactly the WARN and ERROR reports. -/
lemma entryPriceGuard_none_calls {close off t : ℚ}
    (h : (entryPriceGuard close off t).1 = none) :
    entryPriceGuard close off t = (none, [Call.report 2, Call.report 1]) := by
  simp only [entryPriceGuard] at h ⊢
  split at h
  · split at h
    · rw [if_pos (by assumption), if_pos (by assumption)]
    · cases h
  · cases h

/-- The stop path from a flat-position, all-zero state makes no calls. -/
lemma stopPath_zero : stopPath 0 zeroState = (zeroState, []) := by
  unfold stopPath zeroState
  simp

/-- Reduction of the tick to the stop path when the window is in use and the
current time is at/after the stop time (and at/after the start time). -/
lemma evalTick_stop {cfg : Config} {inp : TickInput} {s : BotState}
    (henb : cfg.enabled = true) (ht : 0 < inp.tickSize)
    (hw : cfg.useWindow = true) (hstart : cfg.startTime ≤ inp.currentTime)
    (hstop : cfg.stopTime ≤ inp.currentTime) :
    evalTick cfg inp s = stopPath inp.posQty s := by
  unfold evalTick
  rw [if_neg (by simp [henb]), if_neg (not_le.mpr ht),
    if_neg (fun h => absurd hstart (not_le.mpr h.2)), if_pos ⟨hw, hstop⟩]

/-! ### Pointwise evaluation of the state-machine branches -/

lemma pollLeg_filled {orders : List Order} {legId : Int} {side : TradeSide} {o : Order}
    (hid : legId ≠ 0) (hlook : getOrderById orders legId = some o)
    (hfill : o.orderStatusCode = OrderStatus.Filled) :
    pollLeg orders side legId = (legId, some (side, legId), [Call.queryOrder legId]) := by
  unfold pollLeg
  rw [if_neg hid]
  simp only [hlook]
  rw [if_pos hfill]

lemma state2_buy_filled {orders : List Order} {s : BotState} {o : Order}
    (hbuy : s.buyId ≠ 0) (hlook : getOrderById orders s.buyId = some o)
    (hfill : o.orderStatusCode = OrderStatus.Filled) :
    state2 orders s =
      ({ s with tradeSide := TradeSide.Long, activeId := s.buyId, armed := false, sellId := 0 },
        [Call.queryOrder s.buyId]) := by
  simp [state2, pollLeg_filled hbuy hlook hfill, Option.orElse]

lemma state3_inconsistent {orders : List Order} {p : ℚ} {s : BotState}
    (hact : s.activeId = 0) :
    state3 orders p s =
      ({ s with tradeSide := TradeSide.Flat },
        Call.report 1 :: (if p ≠ 0 then [Call.flatten] else [])) := by
  unfold state3
  rw [if_pos hact]

lemma state3_safety_exit {orders : List Order} {p : ℚ} {s : BotState} {o : Order}
    (hact : s.activeId ≠ 0) (hfind : orders.find? (isExitChild s.activeId) = some o)
    (hnotfill : o.orderStatusCode ≠ OrderStatus.Filled) :
    state3 orders p s =
      (zeroState,
        Call.report 1 :: (if p ≠ 0 then [Call.report 1, Call.flatten] else [])) := by
  unfold state3
  rw [if_neg hact]
  simp only [hfind]
  rw [if_neg hnotfill]

lemma state1_submit {close off so tp t : ℚ} {q : Int} {resp : SubmitResp} {s : BotState}
    (ht : 0 < t) (hoff : t ≤ off) :
    state1 close off so tp t q resp s =
      ((if 0 < resp.result then { s with buyId := resp.id1, sellId := resp.id2, armed := true }
          else { s with buyId := 0, sellId := 0, armed := false }),
        [Call.submit q (roundToTickSize (close - off) t) (roundToTickSize (close + off) t) so tp]) := by
  by_cases hres : 0 < resp.result
  · simp [state1, entryPriceGuard_pass close ht hoff, hres]
  · simp [state1, entryPriceGuard_pass close ht hoff, hres]

/-! ### Concrete fixtures used by witnesses and counterexamples -/

/-- A standard enabled configuration with an 08:30:00-15:00:00 window. -/
def stdCfg : Config :=
  { numContracts := 1, bracketFrac := 1/2, stopFrac := 1/2, tpFrac := 1,
    useWindow := true, startTime := 83000, stopTime := 150000, enabled := true,
    logLevel := 3 }

/-- An armed-bracket state tracking legs 10 (buy) and 20 (sell). -/
def armedSt : BotState :=
  { buyId := 10, sellId := 20, activeId := 0, tradeSide := TradeSide.Flat, armed := true }

/-- A book in which both bracket legs report Filled in the same poll. -/
def bothFilledBook : List Order :=
  [{ internalOrderID := 10, parentInternalOrderID := 0,
      orderStatusCode := OrderStatus.Filled, orderTypeAsInt := OrderType.Limit, price1 := 99 },
    { internalOrderID := 20, parentInternalOrderID := 0,
      orderStatusCode := OrderStatus.Filled, orderTypeAsInt := OrderType.Limit, price1 := 101 }]

/-- A mid-window tick whose book is `bothFilledBook`, with a flat position. -/
def bothFilledInp : TickInput :=
  { orders := bothFilledBook, posQty := 0, close := 100, vol := some 2,
    currentTime := 120000, tickSize := 1, submitResp := ⟨0, 0, 0⟩ }

/-- An in-trade state whose filled parent is order 5. -/
def inTradeSt : BotState :=
  { buyId := 5, sellId := 0, activeId := 5, tradeSide := TradeSide.Long, armed := false }

/-- A book in which the protective child (order 6) of parent 5 is Canceled. -/
def canceledChildBook : List Order :=
  [{ internalOrderID := 6, parentInternalOrderID := 5,
      orderStatusCode := OrderStatus.Canceled, orderTypeAsInt := OrderType.StopType, price1 := 95 }]

/-- A mid-window tick seeing `canceledChildBook` while the position reads 0. -/
def cancelInpFlat : TickInput :=
  { orders := canceledChildBook, posQty := 0, close := 100, vol := some 2,
    currentTime := 120000, tickSize := 1, submitResp := ⟨0, 0, 0⟩ }

/-- A mid-window tick seeing `canceledChildBook` while the position reads 3. -/
def cancelInpPos : TickInput :=
  { orders := canceledChildBook, posQty := 3, close := 100, vol := some 2,
    currentTime := 120000, tickSize := 1, submitResp := ⟨0, 0, 0⟩ }

/-- A state claiming to be in a trade while no filled parent is tracked and a
stale buy-leg id 7 is still persisted. -/
def inconsistentSt : BotState :=
  { buyId := 7, sellId := 0, activeId := 0, tradeSide := TradeSide.Long, armed := false }

/-- A mid-window tick with an empty book and a flat position. -/
def emptyInpFlat : TickInput :=
  { orders := [], posQty := 0, close := 100, vol := some 2,
    currentTime := 120000, tickSize := 1, submitResp := ⟨0, 0, 0⟩ }

/-- A tick at 16:00:00 (after the window stop) with a flat position; the
volatility feed value does not matter on the stop path. -/
def stopInp : TickInput :=
  { orders := [], posQty := 0, close := 100, vol := none,
    currentTime := 160000, tickSize := 1, submitResp := ⟨0, 0, 0⟩ }

/-- A tick at 16:00:00 with an invalid (zero) tick size, nonzero position and
an armed-looking book; used against the tick-size gate. -/
def badTickInp : TickInput :=
  { orders := [], posQty := 5, close := 100, vol := some 2,
    currentTime := 160000, tickSize := 0, submitResp := ⟨1, 30, 31⟩ }

/-! ### The claims -/

/-- Claim C1: for every reachable persisted state (from the all-zero initial
state, through any sequence of evaluation ticks, bootstrap reconciliations,
and window-gate actions), at most one of {bracketArmed, tradeSide ≠ Flat}
holds; in particular whenever tradeSide ≠ Flat, bracketArmed is false. -/
theorem c1_reachable_armed_excludes_in_trade (s : BotState) (h : Reach s) :
    ¬(s.armed = true ∧ s.tradeSide ≠ TradeSide.Flat) ∧
      (s.tradeSide ≠ TradeSide.Flat → s.armed = false) := by
  have hInv := reach_armedFlat h
  refine ⟨fun hc => hc.2 (hInv hc.1), fun h2 => ?_⟩
  cases harm : s.armed
  · rfl
  · exact absurd (hInv harm) h2

/-- Witness for C1 at the initial state. -/
theorem c1_reachable_armed_excludes_in_trade_witness :
    ¬(zeroState.armed = true ∧ zeroState.tradeSide ≠ TradeSide.Flat) ∧
      (zeroState.tradeSide ≠ TradeSide.Flat → zeroState.armed = false) :=
  c1_reachable_armed_excludes_in_trade zeroState Reach.init

/-- Claim C8: for every volatility reading R > 0, configured fractions > 0
and tick size t > 0, each computed offset (entry, stop, target) is at least
one tick increment, even when R·f rounds below one tick. -/
theorem c8_offset_floor (r bf sf tf t : ℚ) (hr : 0 < r) (hb : 0 < bf)
    (hs : 0 < sf) (htp : 0 < tf) (ht : 0 < t) :
    t ≤ computedOffset r bf t ∧ t ≤ computedOffset r sf t ∧ t ≤ computedOffset r tf t :=
  ⟨computedOffset_ge_tick r bf ht, computedOffset_ge_tick r sf ht,
    computedOffset_ge_tick r tf ht⟩

/-- Witness for C8 at R = 2, fractions 1/100, tick 1, where R·f = 1/50
rounds to 0, below one tick. -/
theorem c8_offset_floor_witness :
    (1 : ℚ) ≤ computedOffset 2 (1/100) 1 ∧ (1 : ℚ) ≤ computedOffset 2 (1/100) 1 ∧
      (1 : ℚ) ≤ computedOffset 2 (1/100) 1 :=
  c8_offset_floor 2 (1/100) (1/100) (1/100) 1 (by norm_num) (by norm_num)
    (by norm_num) (by norm_num) (by norm_num)

/-- Claim C10 (implicit): on every tick with trading enabled but tick size
≤ 0, the evaluation returns before the trading-window gate: the state is
unchanged and the only recorded action is the ERROR report - no cancel, no
flatten - even when the current time is at/after the stop time. -/
theorem c10_bad_ticksize_skips_gate (cfg : Config) (inp : TickInput) (s : BotState)
    (henb : cfg.enabled = true) (ht : inp.tickSize ≤ 0) :
    evalTick cfg inp s = (s, [Call.report 1]) := by
  unfold evalTick
  rw [if_neg (by simp [henb]), if_pos ht]

/-- Witness for C10: after the stop time, with a nonzero position and an
armed state, an invalid tick size still short-circuits the whole tick. -/
theorem c10_bad_ticksize_skips_gate_witness :
    evalTick stdCfg badTickInp armedSt = (armedSt, [Call.report 1]) :=
  c10_bad_ticksize_skips_gate stdCfg badTickInp armedSt rfl (by norm_num [badTickInp])

/-- Claim C3 (amended): on every open-gate tick with tradeSide ≠ Flat but
activeFilledParentId = 0, the bot reports the hard consistency error at
ERROR level, queries the position and flattens exactly when it is nonzero,
and resets only tradeSide to Flat, leaving the remaining persisted fields
unchanged; it does not scan children. -/
theorem c3_inconsistent_state_safety (cfg : Config) (inp : TickInput) (s : BotState)
    (r : ℚ) (henb : cfg.enabled = true) (ht : 0 < inp.tickSize)
    (hw : cfg.useWindow = false ∨
      (cfg.startTime ≤ inp.currentTime ∧ inp.currentTime < cfg.stopTime))
    (hvol : inp.vol = some r) (hr : 0 < r)
    (hside : s.tradeSide ≠ TradeSide.Flat) (hact : s.activeId = 0) :
    evalTick cfg inp s =
      ({ s with tradeSide := TradeSide.Flat },
        Call.report 1 :: (if inp.posQty ≠ 0 then [Call.flatten] else [])) := by
  rw [evalTick_open henb ht hw hvol hr, stateMachine_eq_state3 hside,
    state3_inconsistent hact]

/-- Counterexample for C3 as stated: in the inconsistent state with a stale
buy-leg id 7 and a flat position reading, no flatten command is issued and
the persisted state is not fully reset (buyId stays 7). -/
theorem c3_inconsistent_state_counterexample :
    inconsistentSt.tradeSide ≠ TradeSide.Flat ∧ inconsistentSt.activeId = 0 ∧
      (evalTick stdCfg emptyInpFlat inconsistentSt).1.buyId = 7 ∧
      (evalTick stdCfg emptyInpFlat inconsistentSt).1 ≠ zeroState ∧
      Call.flatten ∉ (evalTick stdCfg emptyInpFlat inconsistentSt).2 := by
  decide

/-- Witness for C3 (amended) at the concrete inconsistent state. -/
theorem c3_inconsistent_state_safety_witness :
    evalTick stdCfg emptyInpFlat inconsistentSt =
      ({ inconsistentSt with tradeSide := TradeSide.Flat },
        Call.report 1 :: (if emptyInpFlat.posQty ≠ 0 then [Call.flatten] else [])) :=
  c3_inconsistent_state_safety stdCfg emptyInpFlat inconsistentSt 2 rfl
    (by norm_num [emptyInpFlat]) (Or.inr ⟨by norm_num [stdCfg, emptyInpFlat], by norm_num [stdCfg, emptyInpFlat]⟩)
    rfl (by norm_num) (by decide) rfl

/-- Claim C2 (amended): on every open-gate in-trade tick (tradeSide ≠ Flat,
activeFilledParentId ≠ 0) whose child scan first observes a Canceled or
Error child, the bot reports at ERROR level, queries the position, issues
the flatten command exactly when the position is nonzero (and then exactly
once), and resets all persisted fields to zero/Flat. -/
theorem c2_safety_exit_flatten_reset (cfg : Config) (inp : TickInput) (s : BotState)
    (r : ℚ) (o : Order) (henb : cfg.enabled = true) (ht : 0 < inp.tickSize)
    (hw : cfg.useWindow = false ∨
      (cfg.startTime ≤ inp.currentTime ∧ inp.currentTime < cfg.stopTime))
    (hvol : inp.vol = some r) (hr : 0 < r)
    (hside : s.tradeSide ≠ TradeSide.Flat) (hact : s.activeId ≠ 0)
    (hfind : inp.orders.find? (isExitChild s.activeId) = some o)
    (hcanc : o.orderStatusCode = OrderStatus.Canceled ∨
      o.orderStatusCode = OrderStatus.OrderError) :
    evalTick cfg inp s =
      (zeroState,
        Call.report 1 :: (if inp.posQty ≠ 0 then [Call.report 1, Call.flatten] else [])) := by
  have hnotfill : o.orderStatusCode ≠ OrderStatus.Filled := by
    rcases hcanc with h | h <;> simp [h]
  rw [evalTick_open henb ht hw hvol hr, stateMachine_eq_state3 hside,
    state3_safety_exit hact hfind hnotfill]

/-- Counterexample for C2 as stated: in a trade whose first scanned child is
Canceled but whose queried position is zero, no flatten command is issued
(the state is still fully reset). -/
theorem c2_safety_exit_counterexample :
    inTradeSt.tradeSide ≠ TradeSide.Flat ∧ inTradeSt.activeId ≠ 0 ∧
      (cancelInpFlat.orders.find? (isExitChild inTradeSt.activeId)).map
          Order.orderStatusCode = some OrderStatus.Canceled ∧
      Call.flatten ∉ (evalTick stdCfg cancelInpFlat inTradeSt).2 ∧
      (evalTick stdCfg cancelInpFlat inTradeSt).1 = zeroState := by
  decide

/-- Witness for C2 (amended) with a nonzero position: exactly one flatten. -/
theorem c2_safety_exit_flatten_reset_witness :
    evalTick stdCfg cancelInpPos inTradeSt =
      (zeroState,
        Call.report 1 ::
          (if cancelInpPos.posQty ≠ 0 then [Call.report 1, Call.flatten] else [])) :=
  c2_safety_exit_flatten_reset stdCfg cancelInpPos inTradeSt 2
    { internalOrderID := 6, parentInternalOrderID := 5,
      orderStatusCode := OrderStatus.Canceled, orderTypeAsInt := OrderType.StopType, price1 := 95 }
    rfl (by norm_num [cancelInpPos])
    (Or.inr ⟨by norm_num [stdCfg, cancelInpPos], by norm_num [stdCfg, cancelInpPos]⟩)
    rfl (by norm_num) (by decide) (by decide) (by decide) (Or.inl rfl)

/-- Claim C4: on every open-gate armed polling tick (tradeSide = Flat,
bracketArmed = true) whose buy leg reports Filled, the buy leg wins
deterministically - the single adapter query is the buy leg's, so the sell
leg is not queried even if it would also report Filled - and the resulting
state is tradeSide = Long, activeFilledParentId = buyLegId, bracketArmed =
false, with the sell leg id cleared to 0. -/
theorem c4_buy_leg_fill_priority (cfg : Config) (inp : TickInput) (s : BotState)
    (r : ℚ) (o : Order) (henb : cfg.enabled = true) (ht : 0 < inp.tickSize)
    (hw : cfg.useWindow = false ∨
      (cfg.startTime ≤ inp.currentTime ∧ inp.currentTime < cfg.stopTime))
    (hvol : inp.vol = some r) (hr : 0 < r)
    (hside : s.tradeSide = TradeSide.Flat) (harmed : s.armed = true)
    (hbuy : s.buyId ≠ 0) (hlook : getOrderById inp.orders s.buyId = some o)
    (hfill : o.orderStatusCode = OrderStatus.Filled) :
    evalTick cfg inp s =
      ({ s with tradeSide := TradeSide.Long, activeId := s.buyId, armed := false, sellId := 0 },
        [Call.queryOrder s.buyId]) := by
  rw [evalTick_open henb ht hw hvol hr, stateMachine_eq_state2 hside harmed,
    state2_buy_filled hbuy hlook hfill]

/-- Witness for C4 on a book where both legs report Filled: only the buy leg
is queried and it wins. -/
theorem c4_buy_leg_fill_priority_witness :
    evalTick stdCfg bothFilledInp armedSt =
      ({ armedSt with tradeSide := TradeSide.Long, activeId := armedSt.buyId, armed := false, sellId := 0 },
        [Call.queryOrder armedSt.buyId]) :=
  c4_buy_leg_fill_priority stdCfg bothFilledInp armedSt 2
    { internalOrderID := 10, parentInternalOrderID := 0,
      orderStatusCode := OrderStatus.Filled, orderTypeAsInt := OrderType.Limit, price1 := 99 }
    rfl (by norm_num [bothFilledInp])
    (Or.inr ⟨by norm_num [stdCfg, bothFilledInp], by norm_num [stdCfg, bothFilledInp]⟩)
    rfl (by norm_num) rfl rfl (by decide) (by decide) rfl

/-- Claim C5: running the stop-time (window-close) path twice in succession
from the all-zero/Flat state - with the position reading flat - produces no
cancel-order call and no flatten call on either run (in particular not on
the second) and leaves the persisted state at all-zero/Flat. -/
theorem c5_stop_path_idempotent (cfg : Config) (inp1 inp2 : TickInput)
    (henb : cfg.enabled = true) (hw : cfg.useWindow = true)
    (ht1 : 0 < inp1.tickSize) (hstart1 : cfg.startTime ≤ inp1.currentTime)
    (hstop1 : cfg.stopTime ≤ inp1.currentTime) (hpos1 : inp1.posQty = 0)
    (ht2 : 0 < inp2.tickSize) (hstart2 : cfg.startTime ≤ inp2.currentTime)
    (hstop2 : cfg.stopTime ≤ inp2.currentTime) (hpos2 : inp2.posQty = 0) :
    evalTick cfg inp1 zeroState = (zeroState, []) ∧
      evalTick cfg inp2 (evalTick cfg inp1 zeroState).1 = (zeroState, []) := by
  have h1 : evalTick cfg inp1 zeroState = (zeroState, []) := by
    rw [evalTick_stop henb ht1 hw hstart1 hstop1, hpos1, stopPath_zero]
  refine ⟨h1, ?_⟩
  rw [h1]
  show evalTick cfg inp2 zeroState = (zeroState, [])
  rw [evalTick_stop henb ht2 hw hstart2 hstop2, hpos2, stopPath_zero]

/-- Witness for C5 at two consecutive 16:00:00 ticks with a flat position. -/
theorem c5_stop_path_idempotent_witness :
    evalTick stdCfg stopInp zeroState = (zeroState, []) ∧
      evalTick stdCfg stopInp (evalTick stdCfg stopInp zeroState).1 = (zeroState, []) :=
  c5_stop_path_idempotent stdCfg stopInp stopInp rfl rfl
    (by norm_num [stopInp]) (by norm_num [stdCfg, stopInp]) (by norm_num [stdCfg, stopInp]) rfl
    (by norm_num [stopInp]) (by norm_num [stdCfg, stopInp]) (by norm_num [stdCfg, stopInp]) rfl

/-- Claim C9: in the submission state, whenever the rounded buy limit is not
below the rounded sell limit, the buy limit is nudged to one tick below the
sell limit with a WARN report (and, the sell limit being a tick multiple,
the nudged price is then strictly below it); and whenever the guard yields
the abort outcome, the tick makes no submission call, changes no persisted
field, and surfaces the WARN and ERROR reports. -/
theorem c9_price_guard_nudge_and_abort :
    (∀ close off t : ℚ, 0 < t →
        roundToTickSize (close + off) t ≤ roundToTickSize (close - off) t →
        entryPriceGuard close off t =
          (some (roundToTickSize (close + off) t - t, roundToTickSize (close + off) t),
            [Call.report 2])) ∧
    (∀ (close off so tp t : ℚ) (q : Int) (resp : SubmitResp) (s : BotState),
        (entryPriceGuard close off t).1 = none →
        state1 close off so tp t q resp s = (s, [Call.report 2, Call.report 1])) := by
  constructor
  · intro close off t ht hge
    have hne := ne_of_gt ht
    obtain ⟨k, hk⟩ := roundToIncrement_isMul (close + off) hne
    have hmul : roundToTickSize (roundToTickSize (close + off) t - t) t =
        roundToTickSize (close + off) t - t := by
      unfold roundToTickSize
      rw [hk]
      have hk2 : (k : ℚ) * t - t = ((k - 1 : ℤ) : ℚ) * t := by push_cast; ring
      rw [hk2, roundToIncrement_intMul _ hne]
    simp only [entryPriceGuard]
    rw [if_pos hge, hmul, if_neg (by linarith)]
  · intro close off so tp t q resp s hnone
    have h2 := entryPriceGuard_none_calls hnone
    unfold state1
    rw [h2]

/-- Witness for C9: the nudge at (close, off, t) = (0, 0, 1), and the abort
outcome of the guard exercised at t = -1. -/
theorem c9_price_guard_nudge_and_abort_witness :
    entryPriceGuard 0 0 1 = (some (-1, 0), [Call.report 2]) ∧
      state1 0 0 0 0 (-1) 1 ⟨1, 10, 11⟩ zeroState =
        (zeroState, [Call.report 2, Call.report 1]) := by
  constructor
  · have h := c9_price_guard_nudge_and_abort.1 0 0 1 (by norm_num)
      (by norm_num [roundToTickSize, roundToIncrement])
    rw [h]
    norm_num [roundToTickSize, roundToIncrement]
  · exact c9_price_guard_nudge_and_abort.2 0 0 0 0 (-1) 1 ⟨1, 10, 11⟩ zeroState
      (by norm_num [entryPriceGuard, roundToTickSize, roundToIncrement, round_eq])

/-- A flat mid-window tick on which a submission succeeds with leg ids 30
and 31. -/
def submitInp : TickInput :=
  { orders := [], posQty := 0, close := 100, vol := some 2,
    currentTime := 120000, tickSize := 1, submitResp := ⟨1, 30, 31⟩ }

/-- Claim C7: a bracket submission is attempted only in states with
tradeSide = Flat and bracketArmed = false (no other branch of the tick ever
emits a submit call); and on any open-gate flat/unarmed tick, a positive
submission result (with the adapter honouring its contract of returning
nonzero leg ids) leaves both persisted leg ids nonzero and bracketArmed =
true, while a non-positive result leaves both ids 0 and bracketArmed =
false. -/
theorem c7_submission_guard_and_result :
    (∀ (cfg : Config) (inp : TickInput) (s : BotState) (q : Int) (b sl so tp : ℚ),
        Call.submit q b sl so tp ∈ (evalTick cfg inp s).2 →
        s.tradeSide = TradeSide.Flat ∧ s.armed = false) ∧
    (∀ (cfg : Config) (inp : TickInput) (s : BotState) (r : ℚ),
        cfg.enabled = true → 0 < inp.tickSize →
        (cfg.useWindow = false ∨
          (cfg.startTime ≤ inp.currentTime ∧ inp.currentTime < cfg.stopTime)) →
        inp.vol = some r → 0 < r →
        s.tradeSide = TradeSide.Flat → s.armed = false →
        ((0 < inp.submitResp.result → inp.submitResp.id1 ≠ 0 → inp.submitResp.id2 ≠ 0 →
            (evalTick cfg inp s).1.buyId ≠ 0 ∧ (evalTick cfg inp s).1.sellId ≠ 0 ∧
              (evalTick cfg inp s).1.armed = true) ∧
          (inp.submitResp.result ≤ 0 →
            (evalTick cfg inp s).1.buyId = 0 ∧ (evalTick cfg inp s).1.sellId = 0 ∧
              (evalTick cfg inp s).1.armed = false))) := by
  constructor
  · intro cfg inp s q b sl so tp hmem
    unfold evalTick at hmem
    split at hmem
    · simp at hmem
    split at hmem
    · simp at hmem
    split at hmem
    · obtain ⟨i, hi⟩ := beforeStartPath_calls hmem
      exact Call.noConfusion hi
    split at hmem
    · rcases stopPath_calls hmem with ⟨i, hi⟩ | hi
      · exact Call.noConfusion hi
      · exact Call.noConfusion hi
    split at hmem
    · simp at hmem
    split at hmem
    · simp at hmem
    · unfold stateMachine at hmem
      split at hmem
      · rename_i hcond
        exact hcond
      split at hmem
      · obtain ⟨i, hi⟩ := state2_calls hmem
        exact Call.noConfusion hi
      split at hmem
      · rcases state3_calls hmem with hi | hi
        · exact Call.noConfusion hi
        · exact Call.noConfusion hi
      · simp at hmem
  · intro cfg inp s r henb ht hw hvol hr hflat harm
    have heval : evalTick cfg inp s =
        ((if 0 < inp.submitResp.result then
            { s with buyId := inp.submitResp.id1, sellId := inp.submitResp.id2, armed := true }
          else { s with buyId := 0, sellId := 0, armed := false }),
          [Call.submit cfg.numContracts
            (roundToTickSize (inp.close - computedOffset r cfg.bracketFrac inp.tickSize) inp.tickSize)
            (roundToTickSize (inp.close + computedOffset r cfg.bracketFrac inp.tickSize) inp.tickSize)
            (computedOffset r cfg.stopFrac inp.tickSize)
            (computedOffset r cfg.tpFrac inp.tickSize)]) := by
      rw [evalTick_open henb ht hw hvol hr, stateMachine_eq_state1 hflat harm,
        state1_submit ht (computedOffset_ge_tick r cfg.bracketFrac ht)]
    constructor
    · intro hres h1 h2
      rw [heval]
      simp only [if_pos hres]
      exact ⟨h1, h2, by trivial⟩
    · intro hres
      rw [heval]
      simp only [if_neg (not_lt.mpr hres)]
      exact ⟨by trivial, by trivial, by trivial⟩

/-- Witness for C7: a successful submission from the flat/unarmed initial
state stores leg ids 30 and 31 and arms the bracket. -/
theorem c7_submission_guard_and_result_witness :
    (zeroState.tradeSide = TradeSide.Flat ∧ zeroState.armed = false) ∧
      ((evalTick stdCfg submitInp zeroState).1.buyId ≠ 0 ∧
        (evalTick stdCfg submitInp zeroState).1.sellId ≠ 0 ∧
        (evalTick stdCfg submitInp zeroState).1.armed = true) := by
  have ht : (0 : ℚ) < submitInp.tickSize := by norm_num [submitInp]
  have heval : evalTick stdCfg submitInp zeroState =
      ((if 0 < submitInp.submitResp.result then
          { zeroState with buyId := submitInp.submitResp.id1, sellId := submitInp.submitResp.id2, armed := true }
        else { zeroState with buyId := 0, sellId := 0, armed := false }),
        [Call.submit stdCfg.numContracts
          (roundToTickSize (submitInp.close - computedOffset 2 stdCfg.bracketFrac submitInp.tickSize) submitInp.tickSize)
          (roundToTickSize (submitInp.close + computedOffset 2 stdCfg.bracketFrac submitInp.tickSize) submitInp.tickSize)
          (computedOffset 2 stdCfg.stopFrac submitInp.tickSize)
          (computedOffset 2 stdCfg.tpFrac submitInp.tickSize)]) := by
    rw [evalTick_open rfl ht (Or.inr ⟨by decide, by decide⟩) rfl (by norm_num),
      stateMachine_eq_state1 rfl rfl,
      state1_submit ht (computedOffset_ge_tick 2 stdCfg.bracketFrac ht)]
  constructor
  · exact c7_submission_guard_and_result.1 stdCfg submitInp zeroState stdCfg.numContracts
      (roundToTickSize (submitInp.close - computedOffset 2 stdCfg.bracketFrac submitInp.tickSize) submitInp.tickSize)
      (roundToTickSize (submitInp.close + computedOffset 2 stdCfg.bracketFrac submitInp.tickSize) submitInp.tickSize)
      (computedOffset 2 stdCfg.stopFrac submitInp.tickSize)
      (computedOffset 2 stdCfg.tpFrac submitInp.tickSize)
      (by rw [heval]; exact List.mem_singleton_self _)
  · exact (c7_submission_guard_and_result.2 stdCfg submitInp zeroState 2 rfl ht
      (Or.inr ⟨by decide, by decide⟩) rfl (by norm_num) rfl rfl).1
      (by decide) (by decide) (by decide)

/-- The reconciliation book: two top-level open limit orders (10 at price
99, 20 at price 101), each with exactly two attached children. -/
def bootBook : List Order :=
  [{ internalOrderID := 10, parentInternalOrderID := 0,
      orderStatusCode := OrderStatus.OpenStatus, orderTypeAsInt := OrderType.Limit, price1 := 99 },
    { internalOrderID := 11, parentInternalOrderID := 10,
      orderStatusCode := OrderStatus.OpenStatus, orderTypeAsInt := OrderType.StopType, price1 := 95 },
    { internalOrderID := 12, parentInternalOrderID := 10,
      orderStatusCode := OrderStatus.OpenStatus, orderTypeAsInt := OrderType.Limit, price1 := 103 },
    { internalOrderID := 20, parentInternalOrderID := 0,
      orderStatusCode := OrderStatus.OpenStatus, orderTypeAsInt := OrderType.Limit, price1 := 101 },
    { internalOrderID := 21, parentInternalOrderID := 20,
      orderStatusCode := OrderStatus.OpenStatus, orderTypeAsInt := OrderType.StopType, price1 := 105 },
    { internalOrderID := 22, parentInternalOrderID := 20,
      orderStatusCode := OrderStatus.OpenStatus, orderTypeAsInt := OrderType.Limit, price1 := 97 }]

/-- Bootstrap input: flat position over `bootBook`. -/
def bootInp : TickInput :=
  { orders := bootBook, posQty := 0, close := 100, vol := none,
    currentTime := 0, tickSize := 1, submitResp := ⟨0, 0, 0⟩ }

/-- Claim C6: with a flat position and an order book with pairwise distinct
order ids, if reconciliation finds exactly two candidate orders (top-level
open limit orders with exactly two children) then it assigns the
lower-priced one as the buy leg, the higher-priced one as the sell leg, and
arms the bracket; for any other candidate count it leaves every id 0 and the
bracket unarmed. -/
theorem c6_reconciliation_two_candidates (inp : TickInput) (hflat : inp.posQty = 0)
    (hnd : (inp.orders.map Order.internalOrderID).Nodup) :
    (∀ a b : Order, bootCandidates inp.orders = [a, b] →
        ((a.price1 < b.price1 →
            bootstrap inp = { zeroState with buyId := a.internalOrderID, sellId := b.internalOrderID, armed := true }) ∧
          (b.price1 < a.price1 →
            bootstrap inp = { zeroState with buyId := b.internalOrderID, sellId := a.internalOrderID, armed := true }))) ∧
      ((bootCandidates inp.orders).length ≠ 2 → bootstrap inp = zeroState) := by
  constructor
  · intro a b hab
    have haC : a ∈ bootCandidates inp.orders := by
      rw [hab]; exact List.mem_cons_self _ _
    have hbC : b ∈ bootCandidates inp.orders := by
      rw [hab]; exact List.mem_cons_of_mem _ (List.mem_cons_self _ _)
    have haM : a ∈ inp.orders := List.mem_of_mem_filter haC
    have hbM : b ∈ inp.orders := List.mem_of_mem_filter hbC
    have hla := getOrderById_mem haM hnd
    have hlb := getOrderById_mem hbM hnd
    constructor
    · intro hlt
      simp only [bootstrap, hflat, lt_irrefl, reduceIte, hab, hla, hlb, Option.getD_some]
      rw [if_pos hlt]
      rfl
    · intro hlt
      simp only [bootstrap, hflat, lt_irrefl, reduceIte, hab, hla, hlb, Option.getD_some]
      rw [if_neg (not_lt.mpr (le_of_lt hlt))]
      rfl
  · intro hlen
    simp only [bootstrap, hflat, lt_irrefl, reduceIte]
    split
    · rename_i a b heq
      exact absurd (by rw [heq]; rfl) hlen
    · rfl

/-- Witness for C6 on `bootBook`: the order at price 99 becomes the buy leg,
the order at price 101 the sell leg, and the bracket is re-armed. -/
theorem c6_reconciliation_two_candidates_witness :
    bootstrap bootInp = { zeroState with buyId := 10, sellId := 20, armed := true } :=
  ((c6_reconciliation_two_candidates bootInp rfl (by decide)).1
      { internalOrderID := 10, parentInternalOrderID := 0,
        orderStatusCode := OrderStatus.OpenStatus, orderTypeAsInt := OrderType.Limit, price1 := 99 }
      { internalOrderID := 20, parentInternalOrderID := 0,
        orderStatusCode := OrderStatus.OpenStatus, orderTypeAsInt := OrderType.Limit, price1 := 101 }
      (by decide)).1 (by norm_num)

end ScalpingBot
